import Mathlib

/-!
Verification of the cofound-platform specification against its code.

The backend analysis pipeline (tenant-scoped store, job lifecycle, dispatch
queue verification, input-safety firewall) ships in this repository only as
documentation (maps-backend/SECURITY.md, README.md); its Python sources
(src/core/firestore_wrapper.py, src/core/security_firewall.py,
src/worker/handler.py, ...) are not in the snapshot, so those components are
modelled from the specification, as marked on each definition.  The frontend
TypeScript sources (useUserRole, DashboardPage, the Firebase auth module, and
ComplianceBadge) are present and embedded directly.
-/

namespace CofoundPlatform

/-- Job lifecycle states (spec section 4.3): initial state queued, terminal
states completed, blocked, failed. -/
inductive JobState where
  | queued
  | processing
  | blocked
  | completed
  | failed
  deriving DecidableEq, Repr

/-- A state is terminal when no further processing may change it. -/
def JobState.isTerminal : JobState → Bool
  | .completed => true
  | .blocked => true
  | .failed => true
  | _ => false

/-- Job record (spec section 3): owning tenant set once at creation; result,
failureReason and blockReason are each populated at most once. -/
structure Job where
  id : Nat
  tenantScope : Nat
  state : JobState
  inputDigest : Nat
  attemptCount : Nat
  result : Option String
  failureReason : Option String
  blockReason : Option String
  deriving DecidableEq, Repr

/-- Store-level errors surfaced by the tenant-scoped accessor. -/
inductive StoreError where
  | notFound
  | storeUnavailable
  deriving DecidableEq, Repr

/-- Modelled from the spec: the Tenant-Scoped Store Accessor (the
TenantFirestore wrapper of maps-backend/SECURITY.md; the backend source
src/core/firestore_wrapper.py is not in the repository snapshot).  Every
lookup path is rooted under the caller tenant scope, so a job is found only
when both its id matches and its owning tenantScope equals the caller scope;
a cross-tenant job yields the same notFound as an absent one. -/
def tenantGet (store : List Job) (scope : Nat) (jobId : Nat) : Except StoreError Job :=
  match store.find? (fun j => j.id == jobId && j.tenantScope == scope) with
  | some j => Except.ok j
  | none => Except.error StoreError.notFound

/-- Modelled from the spec: listing through the tenant-scoped accessor only
ever traverses the caller tenant root, so it returns exactly the jobs owned
by that scope. -/
def tenantList (store : List Job) (scope : Nat) : List Job :=
  store.filter (fun j => j.tenantScope == scope)

/-- Claim C1: a caller whose resolved tenant scope differs from a job's owning
tenantScope receives NotFound, the very value an absent job produces (so the
two cases are indistinguishable in error shape), and a listing for one tenant
never contains another tenant's jobs. -/
theorem cross_tenant_get_not_found (store : List Job) (scope jobId : Nat)
    (h : ∀ j ∈ store, j.id = jobId → j.tenantScope ≠ scope) :
    tenantGet store scope jobId = Except.error StoreError.notFound ∧
    tenantGet store scope jobId = tenantGet [] scope jobId ∧
    ∀ j ∈ tenantList store scope, j.tenantScope = scope := by
  have hfind : store.find? (fun j => j.id == jobId && j.tenantScope == scope) = none := by
    rw [List.find?_eq_none]
    intro j hj
    simp only [Bool.and_eq_true, beq_iff_eq, not_and]
    intro hid
    exact fun hsc => h j hj hid hsc
  refine ⟨?_, ?_, ?_⟩
  · simp [tenantGet, hfind]
  · simp [tenantGet, hfind]
  · intro j hj
    have := List.of_mem_filter hj
    simpa using this

/-- A job owned by tenant 7. -/
def jobA : Job :=
  { id := 1, tenantScope := 7, state := .queued, inputDigest := 0,
    attemptCount := 0, result := none, failureReason := none, blockReason := none }

/-- Witness for C1: tenant 8 looking up tenant 7's job 1 gets notFound,
identical to the empty-store answer, and tenant 8's listing is empty of it. -/
theorem cross_tenant_get_not_found_witness :
    tenantGet [jobA] 8 1 = Except.error StoreError.notFound ∧
    tenantGet [jobA] 8 1 = tenantGet [] 8 1 ∧
    ∀ j ∈ tenantList [jobA] 8, j.tenantScope = 8 :=
  cross_tenant_get_not_found [jobA] 8 1 (by decide)

/-- Modelled from the spec: the legal edges of the job state machine
(spec section 4.3), expressed as an explicit match table. -/
def validEdge : JobState → JobState → Bool
  | .queued, .processing => true
  | .processing, .blocked => true
  | .processing, .completed => true
  | .processing, .failed => true
  | _, _ => false

/-- Progress measure on job states: queued before processing before any
terminal state. -/
def stateRank : JobState → Nat
  | .queued => 0
  | .processing => 1
  | _ => 2

theorem validEdge_rank_lt : ∀ a b : JobState, validEdge a b = true → stateRank a < stateRank b := by
  intro a b h
  cases a <;> cases b <;> simp_all [validEdge, stateRank]

/-- Claim C4: along any nonempty chain of state-machine edges the progress
rank strictly increases, so a job never revisits a state and never re-enters
queued after leaving it. -/
theorem job_state_monotone (a b : JobState)
    (h : Relation.TransGen (fun x y => validEdge x y = true) a b) :
    stateRank a < stateRank b ∧ b ≠ JobState.queued ∧ a ≠ b := by
  have hlt : stateRank a < stateRank b := by
    induction h with
    | single hs => exact validEdge_rank_lt _ _ hs
    | tail _ hs ih => exact lt_trans ih (validEdge_rank_lt _ _ hs)
  refine ⟨hlt, ?_, ?_⟩
  · intro hb
    subst hb
    exact absurd hlt (Nat.not_lt_zero _)
  · intro hab
    subst hab
    exact lt_irrefl _ hlt

/-- Witness for C4: the single edge queued to processing advances the rank,
leaves queued behind, and changes state. -/
theorem job_state_monotone_witness :
    stateRank JobState.queued < stateRank JobState.processing ∧
    JobState.processing ≠ JobState.queued ∧
    JobState.queued ≠ JobState.processing :=
  job_state_monotone JobState.queued JobState.processing
    (Relation.TransGen.single (by decide))

/-- Firewall outcomes (spec section 4.5).  The spec calls the first outcome
admit; it is named allow here. -/
inductive Outcome where
  | allow
  | flag
  | block
  deriving DecidableEq, Repr

/-- The firewall stage that produced a verdict. -/
inductive Stage where
  | lexical
  | obfuscation
  | semantic
  deriving DecidableEq, Repr

/-- Ephemeral firewall verdict (spec section 3). -/
structure FirewallVerdict where
  outcome : Outcome
  stage : Stage
  reason : String
  deriving DecidableEq, Repr

/-- Boolean test that the first list is a leading segment of the second. -/
def leadsList : List Char → List Char → Bool
  | [], _ => true
  | _ :: _, [] => false
  | a :: as, b :: bs => a == b && leadsList as bs

/-- Boolean test that the first list occurs contiguously inside the second. -/
def occursIn (p : List Char) : List Char → Bool
  | [] => leadsList p []
  | b :: bs => leadsList p (b :: bs) || occursIn p bs

/-- Modelled from the spec: the maintained set of known adversarial
phrasings scanned by the lexical stage (instruction-override and
role-reassignment attempts; SECURITY.md cites the patterns below; the
backend source src/core/security_firewall.py is not in the snapshot).
Patterns are matched case-insensitively on the lowercased input. -/
def heuristicPatterns : List (List Char) :=
  [("ignore previous instructions").data,
   ("ignore all previous instructions").data,
   ("dan mode").data,
   ("you are now").data]

/-- Lexical heuristics stage: the first matching adversarial pattern, if
any, found in the lowercased content. -/
def lexicalMatch (content : List Char) : Option (List Char) :=
  heuristicPatterns.find? (fun p => occursIn p (content.map Char.toLower))

/-- Modelled from the spec: zero-width and invisible code points scanned for
by the obfuscation-detection stage. -/
def hiddenCodePoints : List Char :=
  [Char.ofNat 0x200B, Char.ofNat 0x200C, Char.ofNat 0x200D,
   Char.ofNat 0xFEFF, Char.ofNat 0x2060]

/-- Obfuscation stage: does the content carry any hidden code point. -/
def hasHiddenChars (content : List Char) : Bool :=
  content.any (fun c => hiddenCodePoints.contains c)

/-- Modelled from the spec: the three-stage Input Safety Firewall
(spec section 4.5), short-circuiting on the first stage that blocks.
Stage 1 (lexical) blocks on a known adversarial pattern without invoking
anything further.  Stage 2 (obfuscation) never blocks on its own: on hidden
code points it records at least a flag and escalates to stage 3 regardless.
Stage 3 (semantic) calls the external classifier, which labels the content
adversarial or benign with a confidence score; adversarial at or above the
threshold blocks, below it flags.  The second component counts semantic
classifier invocations. -/
def runFirewall (classify : List Char → Bool × Nat) (threshold : Nat)
    (content : List Char) : FirewallVerdict × Nat :=
  match lexicalMatch content with
  | some p =>
    ({ outcome := .block, stage := .lexical, reason := String.mk p }, 0)
  | none =>
    let hidden := hasHiddenChars content
    let (adversarial, confidence) := classify content
    let v : FirewallVerdict :=
      if adversarial then
        if threshold ≤ confidence then
          { outcome := .block, stage := .semantic, reason := "adversarial intent" }
        else
          { outcome := .flag, stage := .semantic, reason := "low-confidence adversarial intent" }
      else if hidden then
        { outcome := .flag, stage := .obfuscation, reason := "hidden characters" }
      else
        { outcome := .allow, stage := .semantic, reason := "benign" }
    (v, 1)

/-- Claim C5: an input matching a lexical heuristic pattern is blocked at the
lexical stage even when it also carries hidden characters, and the semantic
classifier is never invoked. -/
theorem lexical_block_short_circuits (classify : List Char → Bool × Nat)
    (threshold : Nat) (content pat : List Char)
    (hlex : lexicalMatch content = some pat)
    (_hhid : hasHiddenChars content = true) :
    runFirewall classify threshold content
      = ({ outcome := .block, stage := .lexical, reason := String.mk pat }, 0) := by
  simp [runFirewall, hlex]

/-- An input carrying both the first heuristic phrase and a zero-width
space. -/
def bothContent : List Char :=
  ("Ignore previous instructions").data ++ [Char.ofNat 0x200B]

/-- Witness for C5: on bothContent the firewall blocks at the lexical stage
with zero semantic calls, whatever the classifier would have said. -/
theorem lexical_block_short_circuits_witness :
    runFirewall (fun _ => (false, 0)) 80 bothContent
      = ({ outcome := .block, stage := .lexical,
           reason := String.mk (("ignore previous instructions").data) }, 0) :=
  lexical_block_short_circuits (fun _ => (false, 0)) 80 bothContent
    (("ignore previous instructions").data) (by decide) (by decide)

/-- Claim C6: an input with hidden code points but no lexical match is
escalated to the semantic stage — the classifier runs exactly once — and the
verdict is at least flag, never an automatic admit. -/
theorem hidden_chars_escalate (classify : List Char → Bool × Nat)
    (threshold : Nat) (content : List Char)
    (hlex : lexicalMatch content = none)
    (hhid : hasHiddenChars content = true) :
    (runFirewall classify threshold content).2 = 1 ∧
    (runFirewall classify threshold content).1.outcome ≠ Outcome.allow := by
  rcases hc : classify content with ⟨adv, conf⟩
  refine ⟨by simp [runFirewall, hlex, hc], ?_⟩
  cases adv
  · simp [runFirewall, hlex, hhid, hc]
  · by_cases hth : threshold ≤ conf <;> simp [runFirewall, hlex, hhid, hc, hth]

/-- An input that is only a zero-width space: no lexical pattern matches. -/
def hiddenOnlyContent : List Char := [Char.ofNat 0x200B]

/-- Witness for C6: the zero-width-only input reaches the semantic stage
(one classifier call) and is not auto-admitted. -/
theorem hidden_chars_escalate_witness :
    (runFirewall (fun _ => (false, 0)) 80 hiddenOnlyContent).2 = 1 ∧
    (runFirewall (fun _ => (false, 0)) 80 hiddenOnlyContent).1.outcome ≠ Outcome.allow :=
  hidden_chars_escalate (fun _ => (false, 0)) 80 hiddenOnlyContent
    (by decide) (by decide)

/-- Acknowledge / negative-acknowledge status returned to the dispatch queue
(spec section 4.4): ack means do not redeliver, nack means redeliver with
backoff. -/
inductive DeliveryAck where
  | ack
  | nack
  deriving DecidableEq, Repr

/-- Modelled from the spec: processing of one accepted delivery (worker
handler; the backend source src/worker/handler.py is not in the snapshot).
A job already in a terminal state is a no-op returning the prior outcome
with an ack; otherwise the job moves to processing, the firewall runs, a
block verdict terminates the job as blocked with no inference call, an
admitted or flagged job is sent to inference: success completes the job,
a transient failure negative-acknowledges until the retry ceiling is
reached, after which the job fails with MaxRetriesExceeded.  The Nat
component counts inference invocations. -/
def processDelivery (classify : List Char → Bool × Nat) (threshold : Nat)
    (infer : List Char → Option String) (retryCeiling : Nat)
    (content : List Char) (job : Job) (inferCount : Nat) :
    Job × Nat × DeliveryAck :=
  if job.state.isTerminal then
    (job, inferCount, DeliveryAck.ack)
  else
    let job1 : Job := { job with state := .processing, attemptCount := job.attemptCount + 1 }
    let (v, _) := runFirewall classify threshold content
    match v.outcome with
    | .block =>
      ({ job1 with state := .blocked, blockReason := some v.reason }, inferCount, DeliveryAck.ack)
    | _ =>
      match infer content with
      | some r =>
        ({ job1 with state := .completed, result := some r }, inferCount + 1, DeliveryAck.ack)
      | none =>
        if retryCeiling ≤ job1.attemptCount then
          ({ job1 with state := .failed, failureReason := some "MaxRetriesExceeded" },
           inferCount + 1, DeliveryAck.ack)
        else
          (job1, inferCount + 1, DeliveryAck.nack)

/-- Claim C3: redelivery of a job already in a terminal state is a no-op —
the job record (so its result, failureReason and blockReason) is returned
unchanged, the inference count does not move, and the queue is acknowledged
rather than given an error. -/
theorem terminal_redelivery_noop (classify : List Char → Bool × Nat)
    (threshold : Nat) (infer : List Char → Option String) (retryCeiling : Nat)
    (content : List Char) (job : Job) (inferCount : Nat)
    (h : job.state.isTerminal = true) :
    processDelivery classify threshold infer retryCeiling content job inferCount
      = (job, inferCount, DeliveryAck.ack) := by
  simp [processDelivery, h]

/-- A completed job with a stored result. -/
def jobDone : Job :=
  { id := 2, tenantScope := 7, state := .completed, inputDigest := 5,
    attemptCount := 1, result := some "ok", failureReason := none, blockReason := none }

/-- Witness for C3: redelivering the completed jobDone changes nothing and
acknowledges. -/
theorem terminal_redelivery_noop_witness :
    processDelivery (fun _ => (false, 0)) 80 (fun _ => some "r") 3
      (("hello").data) jobDone 4
      = (jobDone, 4, DeliveryAck.ack) :=
  terminal_redelivery_noop (fun _ => (false, 0)) 80 (fun _ => some "r") 3
    (("hello").data) jobDone 4 (by decide)

/-- A signed delivery credential as presented to the callback endpoint. -/
structure DeliveryCred where
  issuer : String
  audience : String
  serviceAccount : String
  deriving DecidableEq, Repr

/-- Modelled from the spec: OIDC verification of a delivery callback
(SECURITY.md section 4, Worker Access): the token must be issued by Google,
intended for this service (audience check), and belong to the authorized
service account. -/
def verifyDeliveryCred (cred : DeliveryCred)
    (expectedAudience expectedServiceAccount : String) : Bool :=
  cred.issuer == "https://accounts.google.com" &&
  cred.audience == expectedAudience &&
  cred.serviceAccount == expectedServiceAccount

/-- Errors surfaced by the delivery-callback endpoint. -/
inductive WorkerError where
  | deliveryUntrusted
  | notFound
  deriving DecidableEq, Repr

/-- Write a processed job back through the tenant-scoped store. -/
def storePut (store : List Job) (job : Job) : List Job :=
  store.map (fun j => if j.id == job.id && j.tenantScope == job.tenantScope then job else j)

/-- Modelled from the spec: the delivery-callback endpoint.  The delivery
credential is verified before any job data is touched; an untrusted
credential is rejected with deliveryUntrusted, leaving the store untouched
and performing zero store reads.  The result carries the outcome, the
resulting store, the inference count, and the number of store reads
performed. -/
def workerEndpoint (expectedAudience expectedServiceAccount : String)
    (cred : DeliveryCred) (classify : List Char → Bool × Nat) (threshold : Nat)
    (infer : List Char → Option String) (retryCeiling : Nat)
    (content : List Char) (scope jobId : Nat) (store : List Job)
    (inferCount : Nat) :
    Except WorkerError (Job × DeliveryAck) × List Job × Nat × Nat :=
  if verifyDeliveryCred cred expectedAudience expectedServiceAccount then
    match tenantGet store scope jobId with
    | .error _ => (Except.error WorkerError.notFound, store, inferCount, 1)
    | .ok job =>
      let (job2, cnt2, ackv) :=
        processDelivery classify threshold infer retryCeiling content job inferCount
      (Except.ok (job2, ackv), storePut store job2, cnt2, 1)
  else
    (Except.error WorkerError.deliveryUntrusted, store, inferCount, 0)

/-- Claim C7: a delivery callback whose credential was not issued to the
queue's trusted service account, or whose audience does not match this
service, fails with deliveryUntrusted before any job data is read or
written: the store (hence every job in it, a queued one included) is
returned unchanged, the inference count does not move, and zero store reads
occur. -/
theorem untrusted_delivery_rejected (expectedAudience expectedServiceAccount : String)
    (cred : DeliveryCred) (classify : List Char → Bool × Nat) (threshold : Nat)
    (infer : List Char → Option String) (retryCeiling : Nat)
    (content : List Char) (scope jobId : Nat) (store : List Job) (inferCount : Nat)
    (h : cred.serviceAccount ≠ expectedServiceAccount ∨ cred.audience ≠ expectedAudience) :
    workerEndpoint expectedAudience expectedServiceAccount cred classify threshold
        infer retryCeiling content scope jobId store inferCount
      = (Except.error WorkerError.deliveryUntrusted, store, inferCount, 0) := by
  have hv : verifyDeliveryCred cred expectedAudience expectedServiceAccount = false := by
    rcases h with h | h <;> simp [verifyDeliveryCred] <;> intro _ <;> simp_all
  simp [workerEndpoint, hv]

/-- A credential issued to the wrong service account. -/
def badCred : DeliveryCred :=
  { issuer := "https://accounts.google.com",
    audience := "https://service.example",
    serviceAccount := "attacker@example.iam" }

/-- Witness for C7: the bad credential is rejected with deliveryUntrusted
and the store holding a queued job is returned untouched with zero reads. -/
theorem untrusted_delivery_rejected_witness :
    workerEndpoint "https://service.example" "tasks@project.iam" badCred
        (fun _ => (false, 0)) 80 (fun _ => some "r") 3 (("hello").data)
        7 1 [jobA] 0
      = (Except.error WorkerError.deliveryUntrusted, [jobA], 0, 0) :=
  untrusted_delivery_rejected "https://service.example" "tasks@project.iam" badCred
    (fun _ => (false, 0)) 80 (fun _ => some "r") 3 (("hello").data)
    7 1 [jobA] 0 (Or.inl (by decide))

/-- Local progress of one delivery callback in the two-callback race:
it has not yet attempted the conditional write (start), it won the write and
has the inference still to run (wonPending), it lost the write and exited
with no side effects (lostDone), or it won and finished (wonDone). -/
inductive CbPhase where
  | start
  | wonPending
  | lostDone
  | wonDone
  deriving DecidableEq, Repr

/-- Global configuration of the race: the persisted job state, the number of
inference invocations so far, and the two callbacks' phases. -/
structure RaceConf where
  jstate : JobState
  inferences : Nat
  p1 : CbPhase
  p2 : CbPhase
  deriving DecidableEq, Repr

/-- Modelled from the spec: interleaved execution of two concurrent delivery
callbacks for the same queued job.  The conditional write (compare-and-swap
keyed on the expected prior state, the store's serialization point) is one
atomic step: it succeeds only when the job is still queued, else the caller
observes the job already in or past processing and exits without side
effects.  The winner then performs the single inference invocation and
finalizes the job. -/
inductive RaceStep : RaceConf → RaceConf → Prop where
  | casWin1 (inf : Nat) (q : CbPhase) :
      RaceStep ⟨.queued, inf, .start, q⟩ ⟨.processing, inf, .wonPending, q⟩
  | casLose1 (s : JobState) (inf : Nat) (q : CbPhase) :
      s ≠ JobState.queued →
      RaceStep ⟨s, inf, .start, q⟩ ⟨s, inf, .lostDone, q⟩
  | finish1 (inf : Nat) (q : CbPhase) :
      RaceStep ⟨.processing, inf, .wonPending, q⟩ ⟨.completed, inf + 1, .wonDone, q⟩
  | casWin2 (inf : Nat) (q : CbPhase) :
      RaceStep ⟨.queued, inf, q, .start⟩ ⟨.processing, inf, q, .wonPending⟩
  | casLose2 (s : JobState) (inf : Nat) (q : CbPhase) :
      s ≠ JobState.queued →
      RaceStep ⟨s, inf, q, .start⟩ ⟨s, inf, q, .lostDone⟩
  | finish2 (inf : Nat) (q : CbPhase) :
      RaceStep ⟨.processing, inf, q, .wonPending⟩ ⟨.completed, inf + 1, q, .wonDone⟩

/-- The initial race configuration: a fresh queued job, no inference yet,
both callbacks about to run. -/
def raceInit : RaceConf := ⟨.queued, 0, .start, .start⟩

/-- Number of callbacks that won the conditional write. -/
def wonWeight : CbPhase → Nat
  | .wonPending => 1
  | .wonDone => 1
  | _ => 0

/-- Number of callbacks that completed their inference. -/
def doneWeight : CbPhase → Nat
  | .wonDone => 1
  | _ => 0

/-- A callback that has exited, either as loser or as finished winner. -/
def cbDone : CbPhase → Bool
  | .lostDone => true
  | .wonDone => true
  | _ => false

/-- Inductive invariant of the race: the job is queued exactly while nobody
has won; at most one callback ever wins; the inference count equals the
number of finished winners; a loser exists only once somebody won; and a
finished winner implies the job is completed. -/
def raceInv (c : RaceConf) : Prop :=
  (c.jstate = JobState.queued ↔ wonWeight c.p1 + wonWeight c.p2 = 0) ∧
  wonWeight c.p1 + wonWeight c.p2 ≤ 1 ∧
  c.inferences = doneWeight c.p1 + doneWeight c.p2 ∧
  (c.p1 = CbPhase.lostDone → 1 ≤ wonWeight c.p1 + wonWeight c.p2) ∧
  (c.p2 = CbPhase.lostDone → 1 ≤ wonWeight c.p1 + wonWeight c.p2) ∧
  (c.p1 = CbPhase.wonPending → c.jstate = JobState.processing) ∧
  (c.p2 = CbPhase.wonPending → c.jstate = JobState.processing) ∧
  (c.p1 = CbPhase.wonDone → c.jstate = JobState.completed) ∧
  (c.p2 = CbPhase.wonDone → c.jstate = JobState.completed)

theorem raceInv_init : raceInv raceInit := by
  simp [raceInv, raceInit, wonWeight, doneWeight]

theorem raceInv_step {a b : RaceConf} (hs : RaceStep a b) (hi : raceInv a) : raceInv b := by
  cases hs with
  | casWin1 inf q =>
    obtain ⟨h1, h2, h3, h4, h5, h6, h7, h8, h9⟩ := hi
    cases q <;> simp_all [raceInv, wonWeight, doneWeight]
  | casLose1 s inf q hne =>
    obtain ⟨h1, h2, h3, h4, h5, h6, h7, h8, h9⟩ := hi
    cases q <;> simp_all [raceInv, wonWeight, doneWeight]
  | finish1 inf q =>
    obtain ⟨h1, h2, h3, h4, h5, h6, h7, h8, h9⟩ := hi
    cases q <;> simp_all [raceInv, wonWeight, doneWeight]
  | casWin2 inf q =>
    obtain ⟨h1, h2, h3, h4, h5, h6, h7, h8, h9⟩ := hi
    cases q <;> simp_all [raceInv, wonWeight, doneWeight]
  | casLose2 s inf q hne =>
    obtain ⟨h1, h2, h3, h4, h5, h6, h7, h8, h9⟩ := hi
    cases q <;> simp_all [raceInv, wonWeight, doneWeight]
  | finish2 inf q =>
    obtain ⟨h1, h2, h3, h4, h5, h6, h7, h8, h9⟩ := hi
    cases q <;> simp_all [raceInv, wonWeight, doneWeight]

theorem raceInv_reachable {c : RaceConf}
    (h : Relation.ReflTransGen RaceStep raceInit c) : raceInv c := by
  induction h with
  | refl => exact raceInv_init
  | tail _ hs ih => exact raceInv_step hs ih

/-- Claim C2: in every interleaving of two concurrent delivery callbacks for
the same fresh queued job that runs both callbacks to completion, exactly
one callback wins the queued-to-processing conditional write, exactly one
inference invocation occurs, the loser exits having made no write, and the
job ends completed. -/
theorem concurrent_delivery_exclusive (c : RaceConf)
    (h : Relation.ReflTransGen RaceStep raceInit c)
    (h1 : cbDone c.p1 = true) (h2 : cbDone c.p2 = true) :
    c.inferences = 1 ∧
    ((c.p1 = CbPhase.wonDone ∧ c.p2 = CbPhase.lostDone) ∨
      (c.p1 = CbPhase.lostDone ∧ c.p2 = CbPhase.wonDone)) ∧
    c.jstate = JobState.completed := by
  have hi := raceInv_reachable h
  obtain ⟨js, inf, p1, p2⟩ := c
  obtain ⟨g1, g2, g3, g4, g5, g6, g7, g8, g9⟩ := hi
  cases p1 <;> cases p2 <;> simp_all [cbDone, wonWeight, doneWeight]

/-- The final configuration of the interleaving in which callback 1 wins. -/
def raceFinal : RaceConf := ⟨.completed, 1, .wonDone, .lostDone⟩

/-- Witness for C2: the concrete schedule callback-1 CAS wins, callback-2
CAS loses, callback-1 finishes, reaches raceFinal, where exactly one win
and one inference are observed. -/
theorem concurrent_delivery_exclusive_witness :
    raceFinal.inferences = 1 ∧
    ((raceFinal.p1 = CbPhase.wonDone ∧ raceFinal.p2 = CbPhase.lostDone) ∨
      (raceFinal.p1 = CbPhase.lostDone ∧ raceFinal.p2 = CbPhase.wonDone)) ∧
    raceFinal.jstate = JobState.completed :=
  concurrent_delivery_exclusive raceFinal
    (Relation.ReflTransGen.head (RaceStep.casWin1 0 CbPhase.start)
      (Relation.ReflTransGen.head
        (RaceStep.casLose2 JobState.processing 0 CbPhase.wonPending (by decide))
        (Relation.ReflTransGen.head (RaceStep.finish1 0 CbPhase.lostDone)
          Relation.ReflTransGen.refl)))
    rfl rfl

/-- Outcome of awaiting user.getIdTokenResult() in the useUserRole hook
(src/platform-hq/src/hooks/useAgents.ts): either the decoded claims arrived,
carrying the custom role claim when the token has one (a JavaScript
string-or-undefined is an Option String), or the call threw. -/
inductive TokenRoleFetch where
  | ok : Option String → TokenRoleFetch
  | err : TokenRoleFetch
  deriving DecidableEq, Repr

/-- JavaScript logical-or fallback on a possibly-absent string: undefined
and the empty string are falsy, so both fall back to the default. -/
def jsOrDefault (v : Option String) (d : String) : String :=
  match v with
  | none => d
  | some s => if s = "" then d else s

/-- The role state the useUserRole hook holds once loading is false, as a
function of the signed-in user (none when signed out) and the outcome of
fetching the ID-token claims: a thrown claims fetch defaults to user, and
so does an absent role claim. -/
def useUserRole (user : Option TokenRoleFetch) : Option String :=
  match user with
  | none => none
  | some TokenRoleFetch.err => some "user"
  | some (TokenRoleFetch.ok role) => some (jsOrDefault role "user")

/-- Which of the three dashboard renderings appears. -/
inductive DashboardView where
  | loadingView
  | partnerView
  | userView
  deriving DecidableEq, Repr

/-- DashboardPage (src/src/app/dashboard/page.tsx): the skeleton while
loading, the partner dashboard when the resolved role is exactly the string
partner, and the standard user view otherwise. -/
def renderDashboard (loading : Bool) (role : Option String) : DashboardView :=
  if loading then DashboardView.loadingView
  else if role = some "partner" then DashboardView.partnerView
  else DashboardView.userView

/-- Claim C8: for a signed-in user the hook never yields a null role once
loading is false; a thrown claims fetch and an absent role claim both
default to the string user; the dashboard shows the partner view exactly
when the token's role claim is the string partner; and a claims-fetch error
degrades to the standard user view. -/
theorem user_role_defaults (fetch : TokenRoleFetch) :
    (useUserRole (some fetch)).isSome = true ∧
    useUserRole (some TokenRoleFetch.err) = some "user" ∧
    useUserRole (some (TokenRoleFetch.ok none)) = some "user" ∧
    (renderDashboard false (useUserRole (some fetch)) = DashboardView.partnerView
      ↔ fetch = TokenRoleFetch.ok (some "partner")) ∧
    renderDashboard false (useUserRole (some TokenRoleFetch.err)) = DashboardView.userView := by
  refine ⟨?_, by decide, by decide, ?_, by decide⟩
  · cases fetch <;> simp [useUserRole]
  · cases fetch with
    | err => simp [useUserRole, renderDashboard]
    | ok role =>
      cases role with
      | none => simp [useUserRole, jsOrDefault, renderDashboard]
      | some s =>
        by_cases hs : s = ""
        · subst hs
          simp [useUserRole, jsOrDefault, renderDashboard]
        · simp [useUserRole, jsOrDefault, renderDashboard, hs]

/-- Firebase auth handle (src/unnamed/part_000): initialized only when
window is defined, i.e. in a browser. -/
def authInit (windowDefined : Bool) : Option Unit :=
  if windowDefined then some () else none

/-- GoogleAuthProvider: created only in a browser. -/
def googleProviderInit (windowDefined : Bool) : Option Unit :=
  if windowDefined then some () else none

/-- Microsoft OAuthProvider: created only in a browser. -/
def microsoftProviderInit (windowDefined : Bool) : Option Unit :=
  if windowDefined then some () else none

/-- signInWithGoogle (src/unnamed/part_000): when auth or the Google
provider is missing it throws Firebase auth not initialized without
invoking signInWithPopup; otherwise the popup runs once and its outcome is
returned (a popup rejection is logged and rethrown).  The Nat component
counts popup invocations. -/
def signInWithGoogle (windowDefined : Bool) (popupResult : Except String Unit) :
    Except String Unit × Nat :=
  match authInit windowDefined, googleProviderInit windowDefined with
  | some _, some _ => (popupResult, 1)
  | _, _ => (Except.error "Firebase auth not initialized", 0)

/-- signInWithMicrosoft (src/unnamed/part_000): same guard against a
missing auth handle or Microsoft provider. -/
def signInWithMicrosoft (windowDefined : Bool) (popupResult : Except String Unit) :
    Except String Unit × Nat :=
  match authInit windowDefined, microsoftProviderInit windowDefined with
  | some _, some _ => (popupResult, 1)
  | _, _ => (Except.error "Firebase auth not initialized", 0)

/-- Claim C9: outside a browser (window undefined, so auth and the
providers were never initialized) both sign-in functions throw the error
Firebase auth not initialized and the sign-in popup is never invoked,
whatever it would have returned. -/
theorem sign_in_outside_browser (popupG popupM : Except String Unit) :
    signInWithGoogle false popupG = (Except.error "Firebase auth not initialized", 0) ∧
    signInWithMicrosoft false popupM = (Except.error "Firebase auth not initialized", 0) :=
  ⟨rfl, rfl⟩

/-- The compliance status prop of ComplianceBadge (src/unnamed/part_003). -/
inductive ComplianceStatus where
  | SAFE
  | RISK
  deriving DecidableEq, Repr

/-- The literal status text the badge renders. -/
def statusText : ComplianceStatus → String
  | ComplianceStatus.SAFE => "SAFE"
  | ComplianceStatus.RISK => "RISK"

/-- What ComplianceBadge renders: the Badge variant, the colour classes,
whether the animated ping indicator appears, and the rendered text
(displayed with the uppercase tracking-wider classes). -/
structure BadgeView where
  variant : String
  colorClasses : String
  showsPing : Bool
  text : String
  deriving DecidableEq, Repr

/-- ComplianceBadge (src/unnamed/part_003): isRisk is status equal to RISK;
the destructive variant with red classes and the ping indicator appear
exactly when isRisk, else the default variant with green classes; the
status text is rendered in both cases. -/
def ComplianceBadge (status : ComplianceStatus) : BadgeView :=
  let isRisk := status == ComplianceStatus.RISK
  { variant := if isRisk then "destructive" else "default",
    colorClasses :=
      if isRisk then "bg-red-500 hover:bg-red-600 text-white"
      else "bg-green-600 hover:bg-green-700 text-white",
    showsPing := isRisk,
    text := statusText status }

/-- Claim C10: the badge uses the destructive variant with red styling and
shows the animated ping exactly when the status is RISK; SAFE gets the
default variant with green styling and no indicator; and the uppercase
status text itself is rendered in both cases. -/
theorem compliance_badge_variants (status : ComplianceStatus) :
    (((ComplianceBadge status).variant = "destructive" ∧
      (ComplianceBadge status).colorClasses = "bg-red-500 hover:bg-red-600 text-white" ∧
      (ComplianceBadge status).showsPing = true)
      ↔ status = ComplianceStatus.RISK) ∧
    (ComplianceBadge ComplianceStatus.SAFE).variant = "default" ∧
    (ComplianceBadge ComplianceStatus.SAFE).colorClasses
      = "bg-green-600 hover:bg-green-700 text-white" ∧
    (ComplianceBadge ComplianceStatus.SAFE).showsPing = false ∧
    (ComplianceBadge ComplianceStatus.SAFE).text = "SAFE" ∧
    (ComplianceBadge ComplianceStatus.RISK).text = "RISK" := by
  cases status <;> simp [ComplianceBadge, statusText]

end CofoundPlatform
